import Mathlib

/-!
Verification of the Cloud Comparison Engine
(src/mcp_servers/comparison_server.py, class CloudComparisonEngine).

The Python engine works on IEEE floats; the embedding models the real
arithmetic exactly with rational numbers.  Every division in the source is
either guarded (the cost score) or can raise ZeroDivisionError (the
savings-percentage expressions dividing by max of the two costs); the
fallible operations are therefore embedded as Option-returning functions,
none standing for the raised ZeroDivisionError.
-/

namespace CloudCostAnalyzer

/-- Identifier of one of the two cloud providers compared by the engine. -/
inductive Provider where
  | aws
  | gcp
deriving DecidableEq

/-- A pair of per-provider rational values, as returned by the private
score helpers of the engine, which all return a dict with keys aws and gcp. -/
structure ProviderPair where
  aws : ℚ
  gcp : ℚ
deriving DecidableEq

/-- Dict-style access to a ProviderPair by provider key. -/
def ProviderPair.get (p : ProviderPair) : Provider → ℚ
  | .aws => p.aws
  | .gcp => p.gcp

/-- The weights table built in CloudComparisonEngine.init (self.weights). -/
structure CriterionWeights where
  cost : ℚ
  performance : ℚ
  scalability : ℚ
  reliability : ℚ
  maintenance : ℚ
deriving DecidableEq

/-- The fixed criterion weights of the engine: cost 0.35, performance 0.25,
scalability 0.20, reliability 0.15, maintenance 0.05. -/
def weights : CriterionWeights :=
  { cost := 35 / 100
    performance := 25 / 100
    scalability := 20 / 100
    reliability := 15 / 100
    maintenance := 5 / 100 }

/-- Static per-provider characteristics (self.provider_characteristics). -/
structure ProviderCharacteristics where
  performance_multiplier : ℚ
  scalability_score : ℚ
  reliability_score : ℚ
  maintenance_score : ℚ
  global_presence : ℚ
  service_maturity : ℚ
deriving DecidableEq

/-- The aws entry of self.provider_characteristics. -/
def aws_characteristics : ProviderCharacteristics :=
  { performance_multiplier := 1
    scalability_score := 95 / 10
    reliability_score := 98 / 10
    maintenance_score := 85 / 10
    global_presence := 99 / 10
    service_maturity := 98 / 10 }

/-- The gcp entry of self.provider_characteristics. -/
def gcp_characteristics : ProviderCharacteristics :=
  { performance_multiplier := 105 / 100
    scalability_score := 93 / 10
    reliability_score := 96 / 10
    maintenance_score := 92 / 10
    global_presence := 88 / 10
    service_maturity := 89 / 10 }

/-- Embedding of CloudComparisonEngine._calculate_cost_score: a lower cost
earns a higher score; both-zero input is guarded and scores 5.0 each. -/
def calculate_cost_score (aws_cost gcp_cost : ℚ) : ProviderPair :=
  if aws_cost = 0 ∧ gcp_cost = 0 then { aws := 5, gcp := 5 }
  else
    let total_cost := aws_cost + gcp_cost
    if total_cost = 0 then { aws := 5, gcp := 5 }
    else { aws := gcp_cost / total_cost * 10, gcp := aws_cost / total_cost * 10 }

/-- Embedding of CloudComparisonEngine._calculate_performance_score.  The
argument is the optional type entry of the workload_requirements dict; the
source reads it with workload_requirements.get of type and default general. -/
def calculate_performance_score (workload_requirements_type : Option String) : ProviderPair :=
  let workload_type := workload_requirements_type.getD "general"
  if workload_type = "compute_intensive" then { aws := 85 / 10, gcp := 9 }
  else if workload_type = "data_intensive" then { aws := 92 / 10, gcp := 88 / 10 }
  else { aws := 88 / 10, gcp := 89 / 10 }

/-- Embedding of CloudComparisonEngine._calculate_scalability_score. -/
def calculate_scalability_score : ProviderPair :=
  { aws := aws_characteristics.scalability_score
    gcp := gcp_characteristics.scalability_score }

/-- Embedding of CloudComparisonEngine._calculate_reliability_score. -/
def calculate_reliability_score : ProviderPair :=
  { aws := aws_characteristics.reliability_score
    gcp := gcp_characteristics.reliability_score }

/-- Embedding of CloudComparisonEngine._calculate_maintenance_score. -/
def calculate_maintenance_score : ProviderPair :=
  { aws := aws_characteristics.maintenance_score
    gcp := gcp_characteristics.maintenance_score }

/-- The provider on the other side of winner, as computed inline in
_get_primary_reasons: aws when the winner is gcp, gcp otherwise. -/
def other_provider (winner : Provider) : Provider :=
  if winner = Provider.gcp then Provider.aws else Provider.gcp

/-- Embedding of CloudComparisonEngine._get_primary_reasons: one fixed
reason string per criterion among cost, performance and scalability in which
the winner strictly beats the other provider, capped at three entries. -/
def get_primary_reasons (winner : Provider)
    (cost_score performance_score scalability_score : ProviderPair) : List String :=
  let other := other_provider winner
  let reasons :=
    (if cost_score.get other < cost_score.get winner
      then ["Melhor custo-benefício"] else []) ++
    (if performance_score.get other < performance_score.get winner
      then ["Superior performance"] else []) ++
    (if scalability_score.get other < scalability_score.get winner
      then ["Melhor escalabilidade"] else [])
  reasons.take 3

/-- The aws final weighted score computed in compare_compute_instances. -/
def aws_final_score (aws_monthly_cost gcp_monthly_cost : ℚ)
    (workload_requirements_type : Option String) : ℚ :=
  (calculate_cost_score aws_monthly_cost gcp_monthly_cost).aws * weights.cost +
  (calculate_performance_score workload_requirements_type).aws * weights.performance +
  calculate_scalability_score.aws * weights.scalability +
  calculate_reliability_score.aws * weights.reliability +
  calculate_maintenance_score.aws * weights.maintenance

/-- The gcp final weighted score computed in compare_compute_instances. -/
def gcp_final_score (aws_monthly_cost gcp_monthly_cost : ℚ)
    (workload_requirements_type : Option String) : ℚ :=
  (calculate_cost_score aws_monthly_cost gcp_monthly_cost).gcp * weights.cost +
  (calculate_performance_score workload_requirements_type).gcp * weights.performance +
  calculate_scalability_score.gcp * weights.scalability +
  calculate_reliability_score.gcp * weights.reliability +
  calculate_maintenance_score.gcp * weights.maintenance

/-- Per-provider score block of the scores entry of the comparison result. -/
structure ScoreSet where
  cost : ℚ
  performance : ℚ
  scalability : ℚ
  reliability : ℚ
  maintenance : ℚ
  final : ℚ
deriving DecidableEq

/-- The recommendation entry of the compute comparison result. -/
structure Recommendation where
  winner : Provider
  confidence : ℚ
  primary_reasons : List String
deriving DecidableEq

/-- The dict returned by compare_compute_instances (numeric and
recommendation fields; the echoed instance-name strings are omitted). -/
structure ComputeComparison where
  aws_cost : ℚ
  gcp_cost : ℚ
  cost_difference : ℚ
  cost_savings_provider : Provider
  cost_savings_percentage : ℚ
  aws_scores : ScoreSet
  gcp_scores : ScoreSet
  recommendation : Recommendation
deriving DecidableEq

/-- The result dict built by compare_compute_instances once every field
expression evaluates without error. -/
def compute_comparison_result (aws_monthly_cost gcp_monthly_cost : ℚ)
    (workload_requirements_type : Option String) : ComputeComparison :=
  let cost_score := calculate_cost_score aws_monthly_cost gcp_monthly_cost
  let performance_score := calculate_performance_score workload_requirements_type
  let awsF := aws_final_score aws_monthly_cost gcp_monthly_cost workload_requirements_type
  let gcpF := gcp_final_score aws_monthly_cost gcp_monthly_cost workload_requirements_type
  let winner := if gcpF < awsF then Provider.aws else Provider.gcp
  { aws_cost := aws_monthly_cost
    gcp_cost := gcp_monthly_cost
    cost_difference := |aws_monthly_cost - gcp_monthly_cost|
    cost_savings_provider :=
      if aws_monthly_cost < gcp_monthly_cost then Provider.aws else Provider.gcp
    cost_savings_percentage :=
      |(aws_monthly_cost - gcp_monthly_cost) / max aws_monthly_cost gcp_monthly_cost| * 100
    aws_scores :=
      { cost := cost_score.aws
        performance := performance_score.aws
        scalability := calculate_scalability_score.aws
        reliability := calculate_reliability_score.aws
        maintenance := calculate_maintenance_score.aws
        final := awsF }
    gcp_scores :=
      { cost := cost_score.gcp
        performance := performance_score.gcp
        scalability := calculate_scalability_score.gcp
        reliability := calculate_reliability_score.gcp
        maintenance := calculate_maintenance_score.gcp
        final := gcpF }
    recommendation :=
      { winner := winner
        confidence := |awsF - gcpF| / 10
        primary_reasons :=
          get_primary_reasons winner cost_score performance_score calculate_scalability_score } }

/-- Embedding of CloudComparisonEngine.compare_compute_instances.  The
cost_savings_percentage expression divides by max of the two monthly costs,
so when that max is 0 the Python code raises ZeroDivisionError while
building the result dict; the embedding returns none in that case. -/
def compare_compute_instances (aws_monthly_cost gcp_monthly_cost : ℚ)
    (workload_requirements_type : Option String) : Option ComputeComparison :=
  if max aws_monthly_cost gcp_monthly_cost = 0 then none
  else some (compute_comparison_result aws_monthly_cost gcp_monthly_cost workload_requirements_type)

/-- One entry of the storage_characteristics dict literal inside
_analyze_storage_characteristics. -/
structure StorageChar where
  durability : String
  availability : String
  use_case : String
deriving DecidableEq

/-- The storage_characteristics dict of _analyze_storage_characteristics;
a key not in the dict yields none, matching the dict get with default
empty dict in the source. -/
def storage_characteristics_table (t : String) : Option StorageChar :=
  if t = "s3_standard" then
    some { durability := "99.999999999%", availability := "99.99%", use_case := "Acesso frequente" }
  else if t = "s3_ia" then
    some { durability := "99.999999999%", availability := "99.9%", use_case := "Acesso infrequente" }
  else if t = "s3_glacier" then
    some { durability := "99.999999999%", availability := "N/A", use_case := "Arquivamento" }
  else if t = "standard" then
    some { durability := "99.999999999%", availability := "99.95%", use_case := "Acesso frequente" }
  else if t = "nearline" then
    some { durability := "99.999999999%", availability := "99.95%", use_case := "Backup mensal" }
  else if t = "coldline" then
    some { durability := "99.999999999%", availability := "99.95%", use_case := "Arquivamento" }
  else if t = "archive" then
    some { durability := "99.999999999%", availability := "99.95%", use_case := "Arquivamento longo prazo" }
  else none

/-- The availability string of a storage type with the default used by the
comparison: the dict get with default the string 0%. -/
def availability_string (t : String) : String :=
  ((storage_characteristics_table t).map StorageChar.availability).getD "0%"

/-- The comparison sub-dict of the storage analysis. -/
structure StorageComparisonDetail where
  durability : String
  availability : String
deriving DecidableEq

/-- The dict returned by _analyze_storage_characteristics. -/
structure StorageAnalysis where
  aws_characteristics : Option StorageChar
  gcp_characteristics : Option StorageChar
  comparison : StorageComparisonDetail
deriving DecidableEq

/-- Embedding of _analyze_storage_characteristics.  The availability verdict
compares the two availability percentage strings with the Python string
greater-than, which is lexicographic on code points, exactly the order of
the Lean String less-than with the sides swapped. -/
def analyze_storage_characteristics (aws_type gcp_type : String) : StorageAnalysis :=
  let aws_char := storage_characteristics_table aws_type
  let gcp_char := storage_characteristics_table gcp_type
  { aws_characteristics := aws_char
    gcp_characteristics := gcp_char
    comparison :=
      { durability :=
          if aws_char.map StorageChar.durability = gcp_char.map StorageChar.durability
            then "Equivalente" else "Diferente"
        availability :=
          if availability_string gcp_type < availability_string aws_type
            then "AWS superior" else "GCP superior" } }

/-- The recommendation entry of the storage comparison result (the formatted
reasoning sentence, pure string presentation, is omitted). -/
structure StorageRecommendation where
  winner : Provider
  confidence : ℚ
deriving DecidableEq

/-- The dict returned by compare_storage_options (the echoed storage-type
name strings are carried through storage_analysis). -/
structure StorageComparison where
  aws_cost_per_gb : ℚ
  gcp_cost_per_gb : ℚ
  cost_difference : ℚ
  cost_savings_provider : Provider
  cost_savings_percentage : ℚ
  storage_analysis : StorageAnalysis
  recommendation : StorageRecommendation
deriving DecidableEq

/-- The result dict built by compare_storage_options once every field
expression evaluates without error. -/
def storage_comparison_result (aws_cost gcp_cost : ℚ) (aws_type gcp_type : String) :
    StorageComparison :=
  let cost_difference := |aws_cost - gcp_cost|
  let cost_savings_provider :=
    if aws_cost < gcp_cost then Provider.aws else Provider.gcp
  let cost_savings_percentage := cost_difference / max aws_cost gcp_cost * 100
  { aws_cost_per_gb := aws_cost
    gcp_cost_per_gb := gcp_cost
    cost_difference := cost_difference
    cost_savings_provider := cost_savings_provider
    cost_savings_percentage := cost_savings_percentage
    storage_analysis := analyze_storage_characteristics aws_type gcp_type
    recommendation :=
      { winner := cost_savings_provider
        confidence := min (cost_savings_percentage / 20) 1 } }

/-- Embedding of CloudComparisonEngine.compare_storage_options.  The
cost_savings_percentage expression divides by max of the two per-GB costs,
so when that max is 0 the Python code raises ZeroDivisionError; the
embedding returns none in that case. -/
def compare_storage_options (aws_cost gcp_cost : ℚ) (aws_type gcp_type : String) :
    Option StorageComparison :=
  if max aws_cost gcp_cost = 0 then none
  else some (storage_comparison_result aws_cost gcp_cost aws_type gcp_type)

/-- Per-provider monthly breakdown entry of the TCO result. -/
structure ProviderBreakdown where
  compute_monthly : ℚ
  storage_monthly : ℚ
  additional_monthly : ℚ
  operational_monthly : ℚ
  total_monthly : ℚ
deriving DecidableEq

/-- The dict returned by calculate_tco. -/
structure TCOResult where
  time_horizon_months : ℤ
  aws_tco : ℚ
  gcp_tco : ℚ
  savings : ℚ
  savings_provider : Provider
  savings_percentage : ℚ
  aws_breakdown : ProviderBreakdown
  gcp_breakdown : ProviderBreakdown
deriving DecidableEq

/-- The result dict built by calculate_tco once every field expression
evaluates without error. -/
def tco_result (aws_compute gcp_compute aws_storage gcp_storage aws_additional gcp_additional : ℚ)
    (time_horizon_months : ℤ) : TCOResult :=
  let aws_operational := (aws_compute + aws_storage) * (15 / 100)
  let gcp_operational := (gcp_compute + gcp_storage) * (12 / 100)
  let aws_monthly_total := aws_compute + aws_storage + aws_additional + aws_operational
  let gcp_monthly_total := gcp_compute + gcp_storage + gcp_additional + gcp_operational
  let aws_tco := aws_monthly_total * (time_horizon_months : ℚ)
  let gcp_tco := gcp_monthly_total * (time_horizon_months : ℚ)
  { time_horizon_months := time_horizon_months
    aws_tco := aws_tco
    gcp_tco := gcp_tco
    savings := |aws_tco - gcp_tco|
    savings_provider := if aws_tco < gcp_tco then Provider.aws else Provider.gcp
    savings_percentage := |aws_tco - gcp_tco| / max aws_tco gcp_tco * 100
    aws_breakdown :=
      { compute_monthly := aws_compute
        storage_monthly := aws_storage
        additional_monthly := aws_additional
        operational_monthly := aws_operational
        total_monthly := aws_monthly_total }
    gcp_breakdown :=
      { compute_monthly := gcp_compute
        storage_monthly := gcp_storage
        additional_monthly := gcp_additional
        operational_monthly := gcp_operational
        total_monthly := gcp_monthly_total } }

/-- Embedding of CloudComparisonEngine.calculate_tco.  The
savings_percentage expression divides by max of the two TCO figures, so
when that max is 0 the Python code raises ZeroDivisionError; the embedding
returns none in that case. -/
def calculate_tco (aws_compute gcp_compute aws_storage gcp_storage aws_additional gcp_additional : ℚ)
    (time_horizon_months : ℤ) : Option TCOResult :=
  let r := tco_result aws_compute gcp_compute aws_storage gcp_storage
    aws_additional gcp_additional time_horizon_months
  if max r.aws_tco r.gcp_tco = 0 then none else some r

/-- Number of whitespace-separated words of a string: the length of the
Python str.split with no arguments, which returns the maximal runs of
non-whitespace characters. -/
def word_count (s : String) : ℕ :=
  ((s.data.splitOnP fun c => c.isWhitespace).filter fun w => w ≠ []).length

/-- The budget_multipliers dict get with default 1.0 inside
generate_migration_recommendation. -/
def budget_multiplier (budget_constraints : String) : ℚ :=
  if budget_constraints = "tight" then 7 / 10
  else if budget_constraints = "moderate" then 1
  else if budget_constraints = "flexible" then 13 / 10
  else 1

/-- The numeric and categorical estimates computed by
generate_migration_recommendation (the surrounding report text is
presentation only). -/
structure MigrationEstimate where
  complexity_level : String
  migration_time : String
  effort_level : String
  estimated_cost : ℚ
deriving DecidableEq

/-- Embedding of the estimation logic of generate_migration_recommendation:
complexity is the word count over 10, bucketed at 2 and 5, and the
estimated cost is the bucket base cost times the budget multiplier. -/
def generate_migration_recommendation (workload_description budget_constraints : String) :
    MigrationEstimate :=
  let complexity_score : ℚ := (word_count workload_description : ℚ) / 10
  let complexity_level :=
    if complexity_score < 2 then "Baixa"
    else if complexity_score < 5 then "Média" else "Alta"
  let migration_time :=
    if complexity_level = "Baixa" then "2-4 semanas"
    else if complexity_level = "Média" then "1-3 meses" else "3-6 meses"
  let effort_level :=
    if complexity_level = "Baixa" then "Baixo"
    else if complexity_level = "Média" then "Médio" else "Alto"
  let base_cost : ℚ :=
    if complexity_level = "Baixa" then 5000
    else if complexity_level = "Média" then 15000 else 35000
  { complexity_level := complexity_level
    migration_time := migration_time
    effort_level := effort_level
    estimated_cost := base_cost * budget_multiplier budget_constraints }

/-- Claim C1: the cost score of _calculate_cost_score gives both providers
exactly 5.0 when both monthly costs are 0, and otherwise, for non-negative
costs not both zero, each provider scores the other cost over the total
times 10, the two scores summing to exactly 10. -/
theorem claim_C1 :
    calculate_cost_score 0 0 = { aws := 5, gcp := 5 } ∧
    (∀ a g : ℚ, 0 ≤ a → 0 ≤ g → ¬(a = 0 ∧ g = 0) →
      (calculate_cost_score a g).aws = g / (a + g) * 10 ∧
      (calculate_cost_score a g).gcp = a / (a + g) * 10 ∧
      (calculate_cost_score a g).aws + (calculate_cost_score a g).gcp = 10) := by
  constructor
  · simp [calculate_cost_score]
  · intro a g ha hg hne
    have htot : 0 < a + g := by
      rcases ha.lt_or_eq with h1 | h1
      · linarith
      · rcases hg.lt_or_eq with h2 | h2
        · linarith
        · exact absurd ⟨h1.symm, h2.symm⟩ hne
    have hval : calculate_cost_score a g =
        { aws := g / (a + g) * 10, gcp := a / (a + g) * 10 } := by
      simp only [calculate_cost_score, if_neg hne, if_neg htot.ne']
    refine ⟨by rw [hval], by rw [hval], ?_⟩
    rw [hval]
    show g / (a + g) * 10 + a / (a + g) * 10 = 10
    field_simp
    ring

/-- Claim C1 witness at the concrete costs 100 and 150. -/
theorem claim_C1_witness :
    (calculate_cost_score 100 150).aws = 150 / (100 + 150) * 10 ∧
    (calculate_cost_score 100 150).aws + (calculate_cost_score 100 150).gcp = 10 := by
  have h := claim_C1.2 100 150 (by norm_num) (by norm_num) (by norm_num)
  exact ⟨h.1, h.2.2⟩

/-- Claim C6: the performance score is a pure three-way branch on the
workload type: compute_intensive gives aws 8.5 and gcp 9.0, data_intensive
gives aws 9.2 and gcp 8.8, and any other or missing workload type falls to
the general-purpose branch giving aws 8.8 and gcp 8.9; no input is an
error, the function is total. -/
theorem claim_C6 :
    calculate_performance_score (some "compute_intensive") = { aws := 85 / 10, gcp := 9 } ∧
    calculate_performance_score (some "data_intensive") = { aws := 92 / 10, gcp := 88 / 10 } ∧
    (∀ wt : Option String, wt ≠ some "compute_intensive" → wt ≠ some "data_intensive" →
      calculate_performance_score wt = { aws := 88 / 10, gcp := 89 / 10 }) := by
  refine ⟨by simp [calculate_performance_score], by simp [calculate_performance_score], ?_⟩
  intro wt h1 h2
  cases wt with
  | none => simp [calculate_performance_score]
  | some s =>
    have hs1 : s ≠ "compute_intensive" := fun h => h1 (by rw [h])
    have hs2 : s ≠ "data_intensive" := fun h => h2 (by rw [h])
    simp [calculate_performance_score, hs1, hs2]

/-- Claim C6 witness: an unrecognized workload type string takes the
general-purpose branch. -/
theorem claim_C6_witness :
    calculate_performance_score (some "machine_learning") = { aws := 88 / 10, gcp := 89 / 10 } :=
  claim_C6.2.2 (some "machine_learning") (by simp) (by simp)

/-- Claim C7: the primary-reasons list is exactly the concatenation, in the
order cost then performance then scalability, of one fixed reason string
for each criterion in which the winner strictly beats the other provider
(so the final take of three never drops anything), and its length is always
at most 3; reliability and maintenance are not inputs of the computation. -/
theorem claim_C7 (winner : Provider)
    (cost_score performance_score scalability_score : ProviderPair) :
    get_primary_reasons winner cost_score performance_score scalability_score =
      (if cost_score.get (other_provider winner) < cost_score.get winner
        then ["Melhor custo-benefício"] else []) ++
      (if performance_score.get (other_provider winner) < performance_score.get winner
        then ["Superior performance"] else []) ++
      (if scalability_score.get (other_provider winner) < scalability_score.get winner
        then ["Melhor escalabilidade"] else []) ∧
    (get_primary_reasons winner cost_score performance_score scalability_score).length ≤ 3 := by
  unfold get_primary_reasons
  constructor
  · dsimp only
    split <;> split <;> split <;> simp_all
  · dsimp only
    split <;> split <;> split <;> simp

/-- Claim C3: in compare_compute_instances each final score is the sum of
the five criterion scores weighted by 0.35, 0.25, 0.20, 0.15 and 0.05,
which sum to 1; the winner has the strictly greater final score, and an
exact tie defaults to the second provider, gcp. -/
theorem claim_C3 (a g : ℚ) (wt : Option String) (h : max a g ≠ 0) :
    ∃ r, compare_compute_instances a g wt = some r ∧
      weights.cost = 35 / 100 ∧
      weights.performance = 25 / 100 ∧
      weights.scalability = 20 / 100 ∧
      weights.reliability = 15 / 100 ∧
      weights.maintenance = 5 / 100 ∧
      weights.cost + weights.performance + weights.scalability +
        weights.reliability + weights.maintenance = 1 ∧
      r.aws_scores.final =
        r.aws_scores.cost * weights.cost +
        r.aws_scores.performance * weights.performance +
        r.aws_scores.scalability * weights.scalability +
        r.aws_scores.reliability * weights.reliability +
        r.aws_scores.maintenance * weights.maintenance ∧
      r.gcp_scores.final =
        r.gcp_scores.cost * weights.cost +
        r.gcp_scores.performance * weights.performance +
        r.gcp_scores.scalability * weights.scalability +
        r.gcp_scores.reliability * weights.reliability +
        r.gcp_scores.maintenance * weights.maintenance ∧
      (r.gcp_scores.final < r.aws_scores.final → r.recommendation.winner = Provider.aws) ∧
      (r.aws_scores.final < r.gcp_scores.final → r.recommendation.winner = Provider.gcp) ∧
      (r.aws_scores.final = r.gcp_scores.final → r.recommendation.winner = Provider.gcp) := by
  refine ⟨compute_comparison_result a g wt, ?_, rfl, rfl, rfl, rfl, rfl,
    by norm_num [weights], rfl, rfl, ?_, ?_, ?_⟩
  · simp [compare_compute_instances, h]
  · intro h1
    show (if gcp_final_score a g wt < aws_final_score a g wt
      then Provider.aws else Provider.gcp) = Provider.aws
    exact if_pos h1
  · intro h1
    show (if gcp_final_score a g wt < aws_final_score a g wt
      then Provider.aws else Provider.gcp) = Provider.gcp
    exact if_neg (not_lt.mpr h1.le)
  · intro h1
    show (if gcp_final_score a g wt < aws_final_score a g wt
      then Provider.aws else Provider.gcp) = Provider.gcp
    exact if_neg (not_lt.mpr h1.le)

/-- Claim C3 witness at the concrete monthly costs 100 and 150. -/
theorem claim_C3_witness :
    ∃ r, compare_compute_instances 100 150 none = some r ∧
      r.aws_scores.final =
        r.aws_scores.cost * weights.cost +
        r.aws_scores.performance * weights.performance +
        r.aws_scores.scalability * weights.scalability +
        r.aws_scores.reliability * weights.reliability +
        r.aws_scores.maintenance * weights.maintenance := by
  obtain ⟨r, h1, -, -, -, -, -, -, h8, -⟩ := claim_C3 100 150 none (by norm_num)
  exact ⟨r, h1, h8⟩

/-- Claim C2 as stated is refuted by the code: with both costs zero the
savings-percentage expressions divide by max of two zeros, so the
comparisons raise ZeroDivisionError (none in the embedding) instead of
returning a zero savings percentage. -/
theorem claim_C2_counterexample :
    compare_compute_instances 0 0 none = none ∧
    compare_storage_options 0 0 "s3_standard" "standard" = none := by
  constructor
  · simp [compare_compute_instances]
  · simp [compare_storage_options]

/-- Claim C2 amended: in both comparators the savings percentage equals the
absolute cost difference over the larger cost times 100 whenever the two
non-negative costs are not both zero; when both are zero the division by
max raises (none in the embedding) rather than returning 0. -/
theorem claim_C2_amended_thm :
    (∀ a g : ℚ, ∀ wt, 0 ≤ a → 0 ≤ g → ¬(a = 0 ∧ g = 0) →
      ∃ r, compare_compute_instances a g wt = some r ∧
        r.cost_savings_percentage = |a - g| / max a g * 100) ∧
    (∀ a g : ℚ, ∀ ta tg, 0 ≤ a → 0 ≤ g → ¬(a = 0 ∧ g = 0) →
      ∃ r, compare_storage_options a g ta tg = some r ∧
        r.cost_savings_percentage = |a - g| / max a g * 100) ∧
    compare_compute_instances 0 0 none = none ∧
    (∀ ta tg, compare_storage_options 0 0 ta tg = none) := by
  have hmax : ∀ a g : ℚ, 0 ≤ a → 0 ≤ g → ¬(a = 0 ∧ g = 0) → 0 < max a g := by
    intro a g ha hg hne
    rcases ha.lt_or_eq with h1 | h1
    · exact lt_max_of_lt_left h1
    · rcases hg.lt_or_eq with h2 | h2
      · exact lt_max_of_lt_right h2
      · exact absurd ⟨h1.symm, h2.symm⟩ hne
  refine ⟨?_, ?_, by simp [compare_compute_instances], by intro ta tg; simp [compare_storage_options]⟩
  · intro a g wt ha hg hne
    have hm := hmax a g ha hg hne
    refine ⟨compute_comparison_result a g wt, by simp [compare_compute_instances, hm.ne'], ?_⟩
    show |(a - g) / max a g| * 100 = |a - g| / max a g * 100
    rw [abs_div, abs_of_pos hm]
  · intro a g ta tg ha hg hne
    have hm := hmax a g ha hg hne
    exact ⟨storage_comparison_result a g ta tg,
      by simp [compare_storage_options, hm.ne'], rfl⟩

/-- Claim C2 amended witness at the concrete costs 100 and 150. -/
theorem claim_C2_amended_witness :
    ∃ r, compare_compute_instances 100 150 none = some r ∧
      r.cost_savings_percentage = |(100 : ℚ) - 150| / max (100 : ℚ) 150 * 100 :=
  claim_C2_amended_thm.1 100 150 none (by norm_num) (by norm_num) (by norm_num)

/-- Claim C4: calculate_tco charges an operational overhead of 15 percent
of compute plus storage for aws and 12 percent for gcp, sums the four
monthly components, multiplies the monthly total linearly by the horizon
in months, reports savings as the absolute TCO difference with the smaller
side as savings provider, and retains the full per-provider monthly
breakdown in the output. -/
theorem claim_C4 (ac gc as gs aa ga : ℚ) (m : ℤ)
    (h : max (tco_result ac gc as gs aa ga m).aws_tco (tco_result ac gc as gs aa ga m).gcp_tco ≠ 0) :
    ∃ r, calculate_tco ac gc as gs aa ga m = some r ∧
      r.aws_breakdown.operational_monthly = 15 / 100 * (ac + as) ∧
      r.gcp_breakdown.operational_monthly = 12 / 100 * (gc + gs) ∧
      r.aws_breakdown.total_monthly =
        ac + as + aa + r.aws_breakdown.operational_monthly ∧
      r.gcp_breakdown.total_monthly =
        gc + gs + ga + r.gcp_breakdown.operational_monthly ∧
      r.aws_tco = r.aws_breakdown.total_monthly * (m : ℚ) ∧
      r.gcp_tco = r.gcp_breakdown.total_monthly * (m : ℚ) ∧
      r.savings = |r.aws_tco - r.gcp_tco| ∧
      (r.aws_tco < r.gcp_tco → r.savings_provider = Provider.aws) ∧
      (r.gcp_tco < r.aws_tco → r.savings_provider = Provider.gcp) ∧
      r.aws_breakdown.compute_monthly = ac ∧
      r.aws_breakdown.storage_monthly = as ∧
      r.aws_breakdown.additional_monthly = aa ∧
      r.gcp_breakdown.compute_monthly = gc ∧
      r.gcp_breakdown.storage_monthly = gs ∧
      r.gcp_breakdown.additional_monthly = ga ∧
      r.time_horizon_months = m := by
  refine ⟨tco_result ac gc as gs aa ga m, ?_,
    by show (ac + as) * (15 / 100) = 15 / 100 * (ac + as); ring,
    by show (gc + gs) * (12 / 100) = 12 / 100 * (gc + gs); ring,
    rfl, rfl, rfl, rfl, rfl, ?_, ?_, rfl, rfl, rfl, rfl, rfl, rfl, rfl⟩
  · simp only [calculate_tco]
    rw [if_neg h]
  · intro h1
    show (if (tco_result ac gc as gs aa ga m).aws_tco < (tco_result ac gc as gs aa ga m).gcp_tco
      then Provider.aws else Provider.gcp) = Provider.aws
    exact if_pos h1
  · intro h1
    show (if (tco_result ac gc as gs aa ga m).aws_tco < (tco_result ac gc as gs aa ga m).gcp_tco
      then Provider.aws else Provider.gcp) = Provider.gcp
    exact if_neg (not_lt.mpr h1.le)

/-- Claim C4 witness at the concrete scenario of spec section 8: compute
100 and 150, storage 23 and 20, no additional services, horizon 36. -/
theorem claim_C4_witness :
    ∃ r, calculate_tco 100 150 23 20 0 0 36 = some r ∧
      r.aws_breakdown.operational_monthly = 15 / 100 * (100 + 23) ∧
      r.savings = |r.aws_tco - r.gcp_tco| := by
  obtain ⟨r, h1, h2, -, -, -, -, -, h8, -⟩ :=
    claim_C4 100 150 23 20 0 0 36 (by norm_num [tco_result])
  exact ⟨r, h1, h2, h8⟩

/-- For non-negative costs both cost scores lie between 0 and 10. -/
lemma calculate_cost_score_bounds (a g : ℚ) (ha : 0 ≤ a) (hg : 0 ≤ g) :
    0 ≤ (calculate_cost_score a g).aws ∧ (calculate_cost_score a g).aws ≤ 10 ∧
    0 ≤ (calculate_cost_score a g).gcp ∧ (calculate_cost_score a g).gcp ≤ 10 := by
  unfold calculate_cost_score
  dsimp only
  split
  · norm_num
  split
  · norm_num
  rename_i h1 h2
  have hpos : 0 < a + g := lt_of_le_of_ne (add_nonneg ha hg) (Ne.symm h2)
  have hga : g / (a + g) ≤ 1 := (div_le_one hpos).mpr (by linarith)
  have hag : a / (a + g) ≤ 1 := (div_le_one hpos).mpr (by linarith)
  have hga0 : 0 ≤ g / (a + g) := div_nonneg hg hpos.le
  have hag0 : 0 ≤ a / (a + g) := div_nonneg ha hpos.le
  refine ⟨by linarith, by linarith, by linarith, by linarith⟩

/-- Both performance scores lie between 0 and 10 for every workload type. -/
lemma calculate_performance_score_bounds (wt : Option String) :
    0 ≤ (calculate_performance_score wt).aws ∧ (calculate_performance_score wt).aws ≤ 10 ∧
    0 ≤ (calculate_performance_score wt).gcp ∧ (calculate_performance_score wt).gcp ≤ 10 := by
  unfold calculate_performance_score
  dsimp only
  split
  · norm_num
  split
  · norm_num
  · norm_num

/-- For non-negative costs the aws final weighted score lies in [0, 10]. -/
lemma aws_final_score_bounds (a g : ℚ) (wt : Option String) (ha : 0 ≤ a) (hg : 0 ≤ g) :
    0 ≤ aws_final_score a g wt ∧ aws_final_score a g wt ≤ 10 := by
  obtain ⟨c1, c2, -, -⟩ := calculate_cost_score_bounds a g ha hg
  obtain ⟨p1, p2, -, -⟩ := calculate_performance_score_bounds wt
  simp only [aws_final_score, weights, calculate_scalability_score,
    calculate_reliability_score, calculate_maintenance_score, aws_characteristics]
  constructor <;> linarith

/-- For non-negative costs the gcp final weighted score lies in [0, 10]. -/
lemma gcp_final_score_bounds (a g : ℚ) (wt : Option String) (ha : 0 ≤ a) (hg : 0 ≤ g) :
    0 ≤ gcp_final_score a g wt ∧ gcp_final_score a g wt ≤ 10 := by
  obtain ⟨-, -, c1, c2⟩ := calculate_cost_score_bounds a g ha hg
  obtain ⟨-, -, p1, p2⟩ := calculate_performance_score_bounds wt
  simp only [gcp_final_score, weights, calculate_scalability_score,
    calculate_reliability_score, calculate_maintenance_score, gcp_characteristics]
  constructor <;> linarith

/-- Claim C5: the compute comparator confidence is the absolute final-score
gap over 10 and lies in [0, 1] for non-negative costs, the final scores
themselves lying in [0, 10]; the storage comparator confidence is the
savings percentage over 20 capped at 1 and lies in [0, 1]. -/
theorem claim_C5 :
    (∀ a g : ℚ, ∀ wt, 0 ≤ a → 0 ≤ g → max a g ≠ 0 →
      ∃ r, compare_compute_instances a g wt = some r ∧
        r.recommendation.confidence = |r.aws_scores.final - r.gcp_scores.final| / 10 ∧
        0 ≤ r.aws_scores.final ∧ r.aws_scores.final ≤ 10 ∧
        0 ≤ r.gcp_scores.final ∧ r.gcp_scores.final ≤ 10 ∧
        0 ≤ r.recommendation.confidence ∧ r.recommendation.confidence ≤ 1) ∧
    (∀ a g : ℚ, ∀ ta tg, 0 ≤ a → 0 ≤ g → max a g ≠ 0 →
      ∃ r, compare_storage_options a g ta tg = some r ∧
        r.recommendation.confidence = min (r.cost_savings_percentage / 20) 1 ∧
        0 ≤ r.recommendation.confidence ∧ r.recommendation.confidence ≤ 1) := by
  constructor
  · intro a g wt ha hg h
    obtain ⟨a1, a2⟩ := aws_final_score_bounds a g wt ha hg
    obtain ⟨g1, g2⟩ := gcp_final_score_bounds a g wt ha hg
    refine ⟨compute_comparison_result a g wt,
      by simp [compare_compute_instances, h], rfl, a1, a2, g1, g2, ?_, ?_⟩
    · show 0 ≤ |aws_final_score a g wt - gcp_final_score a g wt| / 10
      positivity
    · show |aws_final_score a g wt - gcp_final_score a g wt| / 10 ≤ 1
      rw [div_le_one (by norm_num), abs_sub_le_iff]
      constructor <;> linarith
  · intro a g ta tg ha hg h
    have hmax0 : 0 ≤ max a g := le_trans ha (le_max_left a g)
    have hp : 0 ≤ |a - g| / max a g * 100 / 20 :=
      div_nonneg (mul_nonneg (div_nonneg (abs_nonneg _) hmax0) (by norm_num)) (by norm_num)
    refine ⟨storage_comparison_result a g ta tg,
      by simp [compare_storage_options, h], rfl, ?_, ?_⟩
    · show 0 ≤ min (|a - g| / max a g * 100 / 20) 1
      exact le_min hp zero_le_one
    · show min (|a - g| / max a g * 100 / 20) 1 ≤ 1
      exact min_le_right _ _

/-- Claim C5 witness at the compute costs 100 and 150 and the storage
scenario of spec section 8, costs 0.023 and 0.020 per GB. -/
theorem claim_C5_witness :
    (∃ r, compare_compute_instances 100 150 none = some r ∧
      0 ≤ r.recommendation.confidence ∧ r.recommendation.confidence ≤ 1) ∧
    (∃ r, compare_storage_options (23 / 1000) (20 / 1000) "s3_standard" "standard" = some r ∧
      0 ≤ r.recommendation.confidence ∧ r.recommendation.confidence ≤ 1) := by
  have hm1 : max (100 : ℚ) 150 ≠ 0 := (lt_max_of_lt_left (by norm_num : (0:ℚ) < 100)).ne'
  have hm2 : max ((23 : ℚ) / 1000) (20 / 1000) ≠ 0 :=
    (lt_max_of_lt_left (by norm_num : (0:ℚ) < 23 / 1000)).ne'
  constructor
  · obtain ⟨r, h1, -, -, -, -, -, h7, h8⟩ :=
      claim_C5.1 100 150 none (by norm_num) (by norm_num) hm1
    exact ⟨r, h1, h7, h8⟩
  · obtain ⟨r, h1, -, h3, h4⟩ :=
      claim_C5.2 (23 / 1000) (20 / 1000) "s3_standard" "standard"
        (by norm_num) (by norm_num) hm2
    exact ⟨r, h1, h3, h4⟩

/-- Claim C8: a storage type outside the fixed descriptor table yields an
empty descriptor rather than an error, and the availability verdict is
decided by lexicographic comparison of the two availability strings with
default 0 percent: AWS superior exactly when the aws string is
lexicographically greater, GCP superior otherwise. -/
theorem claim_C8 :
    (∀ t : String,
      t ∉ ["s3_standard", "s3_ia", "s3_glacier", "standard", "nearline", "coldline", "archive"] →
      storage_characteristics_table t = none) ∧
    (∀ ta tg : String,
      ((analyze_storage_characteristics ta tg).comparison.availability = "AWS superior" ↔
        availability_string tg < availability_string ta) ∧
      ((analyze_storage_characteristics ta tg).comparison.availability = "GCP superior" ↔
        ¬ availability_string tg < availability_string ta)) := by
  constructor
  · intro t ht
    simp only [List.mem_cons, List.not_mem_nil, or_false, not_or] at ht
    obtain ⟨h1, h2, h3, h4, h5, h6, h7⟩ := ht
    simp [storage_characteristics_table, h1, h2, h3, h4, h5, h6, h7]
  · intro ta tg
    by_cases hlt : availability_string tg < availability_string ta
    · simp [analyze_storage_characteristics, hlt]
    · simp [analyze_storage_characteristics, hlt]

/-- Claim C8 witness: an unknown storage type has an empty descriptor. -/
theorem claim_C8_witness :
    storage_characteristics_table "unknown_type" = none :=
  claim_C8.1 "unknown_type" (by simp)

/-- Claim C9: migration complexity is the word count of the workload
description over 10, bucketed below 2 as Baixa with base cost 5000, in
[2, 5) as Média with base cost 15000, and at 5 or above as Alta with base
cost 35000; the estimated cost is the base cost times the budget factor,
0.7 for tight, 1.0 for moderate, 1.3 for flexible and 1.0 for anything
unrecognized. -/
theorem claim_C9 (desc budget : String) :
    (((word_count desc : ℚ) / 10 < 2 →
      (generate_migration_recommendation desc budget).complexity_level = "Baixa" ∧
      (generate_migration_recommendation desc budget).estimated_cost =
        5000 * budget_multiplier budget) ∧
    (2 ≤ (word_count desc : ℚ) / 10 → (word_count desc : ℚ) / 10 < 5 →
      (generate_migration_recommendation desc budget).complexity_level = "Média" ∧
      (generate_migration_recommendation desc budget).estimated_cost =
        15000 * budget_multiplier budget) ∧
    (5 ≤ (word_count desc : ℚ) / 10 →
      (generate_migration_recommendation desc budget).complexity_level = "Alta" ∧
      (generate_migration_recommendation desc budget).estimated_cost =
        35000 * budget_multiplier budget)) ∧
    budget_multiplier "tight" = 7 / 10 ∧
    budget_multiplier "moderate" = 1 ∧
    budget_multiplier "flexible" = 13 / 10 ∧
    (budget ∉ ["tight", "moderate", "flexible"] → budget_multiplier budget = 1) := by
  refine ⟨⟨?_, ?_, ?_⟩, rfl, rfl, rfl, ?_⟩
  · intro h1
    constructor <;>
      simp [generate_migration_recommendation, h1]
  · intro h1 h2
    constructor <;>
      simp [generate_migration_recommendation, not_lt.mpr h1, h2]
  · intro h1
    have h2 : (2 : ℚ) ≤ (word_count desc : ℚ) / 10 :=
      le_trans (by norm_num : (2 : ℚ) ≤ 5) h1
    constructor <;>
      simp [generate_migration_recommendation, not_lt.mpr h1, not_lt.mpr h2]
  · intro hb
    simp only [List.mem_cons, List.not_mem_nil, or_false, not_or] at hb
    obtain ⟨h1, h2, h3⟩ := hb
    simp [budget_multiplier, h1, h2, h3]

/-- Claim C9 witness: a three-word description under a tight budget lands
in the Baixa bucket with cost 5000 times 0.7. -/
theorem claim_C9_witness :
    (generate_migration_recommendation "simple web app" "tight").complexity_level = "Baixa" ∧
    (generate_migration_recommendation "simple web app" "tight").estimated_cost =
      5000 * budget_multiplier "tight" := by
  have hwc : word_count "simple web app" = 3 := by decide
  exact (claim_C9 "simple web app" "tight").1.1 (by rw [hwc]; norm_num)

/-- Claim C10 as stated is refuted by the code: when both sides cost 0 the
three operations do not return a provider field at all, because the
savings-percentage division by max raises ZeroDivisionError (none in the
embedding) before the result dict is produced. -/
theorem claim_C10_counterexample :
    calculate_tco 0 0 0 0 0 0 36 = none := by
  simp [calculate_tco, tco_result]

/-- Claim C10 amended: the cheaper-side fields are computed with strict
less-than, so whenever the two costs or TCO figures are exactly equal and
the operation actually returns a result (which excludes the both-zero
case, where the savings-percentage division raises), the field names gcp
while the corresponding difference or savings value is 0. -/
theorem claim_C10_amended_thm :
    (∀ a : ℚ, ∀ wt, a ≠ 0 →
      ∃ r, compare_compute_instances a a wt = some r ∧
        r.cost_savings_provider = Provider.gcp ∧ r.cost_difference = 0) ∧
    (∀ a : ℚ, ∀ ta tg, a ≠ 0 →
      ∃ r, compare_storage_options a a ta tg = some r ∧
        r.cost_savings_provider = Provider.gcp ∧ r.cost_difference = 0) ∧
    (∀ ac gc as gs aa ga : ℚ, ∀ m : ℤ, ∀ r,
      calculate_tco ac gc as gs aa ga m = some r → r.aws_tco = r.gcp_tco →
        r.savings_provider = Provider.gcp ∧ r.savings = 0) := by
  refine ⟨?_, ?_, ?_⟩
  · intro a wt ha
    have hm : max a a ≠ 0 := by rw [max_self]; exact ha
    refine ⟨compute_comparison_result a a wt,
      by simp [compare_compute_instances, ha], ?_, ?_⟩
    · show (if a < a then Provider.aws else Provider.gcp) = Provider.gcp
      simp
    · show |a - a| = 0
      simp
  · intro a ta tg ha
    have hm : max a a ≠ 0 := by rw [max_self]; exact ha
    refine ⟨storage_comparison_result a a ta tg,
      by simp [compare_storage_options, ha], ?_, ?_⟩
    · show (if a < a then Provider.aws else Provider.gcp) = Provider.gcp
      simp
    · show |a - a| = 0
      simp
  · intro ac gc as gs aa ga m r hr heq
    have hr2 : r = tco_result ac gc as gs aa ga m := by
      by_cases hc : max (tco_result ac gc as gs aa ga m).aws_tco
          (tco_result ac gc as gs aa ga m).gcp_tco = 0
      · simp [calculate_tco, hc] at hr
      · simp [calculate_tco, hc] at hr
        exact hr.symm
    subst hr2
    constructor
    · show (if (tco_result ac gc as gs aa ga m).aws_tco <
          (tco_result ac gc as gs aa ga m).gcp_tco
        then Provider.aws else Provider.gcp) = Provider.gcp
      rw [if_neg (not_lt.mpr heq.ge)]
    · show |(tco_result ac gc as gs aa ga m).aws_tco -
        (tco_result ac gc as gs aa ga m).gcp_tco| = 0
      rw [heq]
      simp

/-- Claim C10 amended witness: equal nonzero costs 1 and 1 in the compute
comparator, and the TCO of two sides with identical additional costs only,
both yield gcp as the savings side with zero savings. -/
theorem claim_C10_amended_witness :
    (∃ r, compare_compute_instances 1 1 none = some r ∧
      r.cost_savings_provider = Provider.gcp ∧ r.cost_difference = 0) ∧
    ((tco_result 0 0 0 0 1 1 36).savings_provider = Provider.gcp ∧
      (tco_result 0 0 0 0 1 1 36).savings = 0) := by
  constructor
  · exact claim_C10_amended_thm.1 1 none (by norm_num)
  · refine claim_C10_amended_thm.2.2 0 0 0 0 1 1 36 (tco_result 0 0 0 0 1 1 36) ?_ ?_
    · simp [calculate_tco, tco_result]
    · simp [tco_result]

end CloudCostAnalyzer
